import Mathlib

/-!
Verification development for the Rubolt foreign-function bridge
(`src/python/gimmicks`): a shallow embedding in Lean 4 of the bridge's
type maps (`py_to_c_bridge._map_type`, `ffi_helper.FFIHelper.map_type`),
the memory manager (`ffi_helper.MemoryManager`), the type converter
(`type_converter.TypeConverter`), the call marshaller
(`py_to_c_bridge.PyToCBridge.call_c_function`), the library cache
(`PyToCBridge.load_library`) and the operation dispatcher
(`op_dispatcher.OperationDispatcher`), together with theorems settling
the specified behavioral properties.

Modelling conventions:
- Python values are the inductive `PyVal`; ctypes instances are the
  `cInstance` constructor wrapping the constructing value.
- Python exceptions are the inductive `PyErr`; a Python function that can
  raise is embedded as an `Except PyErr`-valued function.
- Python strings are lists of Unicode code points; bytes are lists of
  byte values. UTF-8 encoding/decoding follows the CPython codec
  (strict mode rejects surrogates, overlongs, out-of-range and truncated
  sequences; replace mode substitutes U+FFFD and never fails).
- The C side (malloc/free, dlopen, native calls) is abstracted by
  explicit oracles/state so that the number of underlying native
  operations is observable in theorem statements.
-/

set_option autoImplicit false

/-- Model of the ctypes primitive types used by the bridge. -/
inductive CType
  | c_int | c_long | c_float | c_double | c_char | c_char_p | c_wchar_p
  | c_void_p | c_bool | c_int8 | c_int16 | c_int32 | c_int64
  | c_uint8 | c_uint16 | c_uint32 | c_uint64 | c_size_t
deriving DecidableEq, Repr

/-- Model of Python runtime values crossing the bridge.  Strings are lists
of Unicode code points, bytes are lists of byte values, and `cInstance t v`
models the ctypes instance `t(v)`. -/
inductive PyVal
  | none
  | int (n : Int)
  | float (q : ℚ)
  | bool (b : Bool)
  | str (cps : List Nat)
  | bytes (bs : List Nat)
  | cInstance (t : CType) (v : PyVal)
deriving DecidableEq, Repr

/-- Model of the Python exceptions the embedded code can raise. -/
inductive PyErr
  | runtimeError (msg : String)
  | indexError
  | typeError (msg : String)
  | valueError (msg : String)
  | unicodeEncodeError
  | unicodeDecodeError
deriving DecidableEq, Repr

/-- Embedding of `PyToCBridge._map_type` (py_to_c_bridge.py): Python's
`type_map.get(type_name, ctypes.c_int)`.  The entry for `"void"` is Python
`None`, modelled as `Option.none`; every name missing from the dict maps to
the default `ctypes.c_int`. -/
def PyToCBridge._map_type (type_name : String) : Option CType :=
  if type_name = "void" then Option.none
  else if type_name = "int" then some .c_int
  else if type_name = "long" then some .c_long
  else if type_name = "float" then some .c_float
  else if type_name = "double" then some .c_double
  else if type_name = "char" then some .c_char
  else if type_name = "char*" then some .c_char_p
  else if type_name = "string" then some .c_char_p
  else if type_name = "void*" then some .c_void_p
  else if type_name = "ptr" then some .c_void_p
  else if type_name = "bool" then some .c_bool
  else if type_name = "int8" then some .c_int8
  else if type_name = "int16" then some .c_int16
  else if type_name = "int32" then some .c_int32
  else if type_name = "int64" then some .c_int64
  else if type_name = "uint8" then some .c_uint8
  else if type_name = "uint16" then some .c_uint16
  else if type_name = "uint32" then some .c_uint32
  else if type_name = "uint64" then some .c_uint64
  else some .c_int

/-- Embedding of `FFIHelper.map_type` (ffi_helper.py): same shape as the
bridge map but with `wchar*` and `size_t` entries, without `string`/`ptr`,
and with default `ctypes.c_void_p` for names missing from the dict. -/
def FFIHelper.map_type (type_name : String) : Option CType :=
  if type_name = "void" then Option.none
  else if type_name = "int" then some .c_int
  else if type_name = "long" then some .c_long
  else if type_name = "float" then some .c_float
  else if type_name = "double" then some .c_double
  else if type_name = "char" then some .c_char
  else if type_name = "char*" then some .c_char_p
  else if type_name = "wchar*" then some .c_wchar_p
  else if type_name = "void*" then some .c_void_p
  else if type_name = "bool" then some .c_bool
  else if type_name = "int8" then some .c_int8
  else if type_name = "int16" then some .c_int16
  else if type_name = "int32" then some .c_int32
  else if type_name = "int64" then some .c_int64
  else if type_name = "uint8" then some .c_uint8
  else if type_name = "uint16" then some .c_uint16
  else if type_name = "uint32" then some .c_uint32
  else if type_name = "uint64" then some .c_uint64
  else if type_name = "size_t" then some .c_size_t
  else some .c_void_p

/-- Key set of the `type_map` dict in `PyToCBridge._map_type`. -/
def bridgeTypeNames : List String :=
  ["void", "int", "long", "float", "double", "char", "char*", "string",
   "void*", "ptr", "bool", "int8", "int16", "int32", "int64",
   "uint8", "uint16", "uint32", "uint64"]

/-- Key set of the `type_map` dict in `FFIHelper.map_type`. -/
def ffiTypeNames : List String :=
  ["void", "int", "long", "float", "double", "char", "char*", "wchar*",
   "void*", "bool", "int8", "int16", "int32", "int64",
   "uint8", "uint16", "uint32", "uint64", "size_t"]

/-- State of one `MemoryManager` instance (ffi_helper.py) together with a
model of the underlying C allocator: `allocations` is the instance's
tracking list, `nextRaw` models the next address `malloc` hands out, and
`freeLog` records every pointer passed to the underlying
`ctypes.pythonapi.free`, in order. -/
structure MemState where
  allocations : List Nat
  nextRaw : Nat
  freeLog : List Nat
deriving DecidableEq, Repr

/-- Fresh `MemoryManager` with an arbitrary allocator base address. -/
def MemState.init : MemState := { allocations := [], nextRaw := 1000, freeLog := [] }

/-- Embedding of `MemoryManager.allocate`: calls `malloc(size)` (modelled
by handing out `nextRaw` and advancing it), appends the pointer to the
tracking list, and returns the pointer. -/
def MemoryManager.allocate (s : MemState) (size : Nat) : Nat × MemState :=
  let ptr := s.nextRaw
  (ptr, { s with nextRaw := s.nextRaw + size + 1, allocations := s.allocations ++ [ptr] })

/-- Embedding of `MemoryManager.free`: unconditionally calls the underlying
`ctypes.pythonapi.free(ptr)` (recorded in `freeLog`), then removes the
pointer from the tracking list only when present (`if ptr in
self.allocations: self.allocations.remove(ptr)`).  The function is total:
the source raises nothing and returns `None` on every input. -/
def MemoryManager.free (s : MemState) (ptr : Nat) : MemState :=
  let s1 := { s with freeLog := s.freeLog ++ [ptr] }
  if ptr ∈ s1.allocations then
    { s1 with allocations := s1.allocations.erase ptr }
  else s1

/-- Embedding of `MemoryManager.free_all`: passes every tracked pointer to
the underlying free and clears the tracking list. -/
def MemoryManager.free_all (s : MemState) : MemState :=
  { s with freeLog := s.freeLog ++ s.allocations, allocations := [] }

/-- C3 (corrected), counterexample: on the call path the claim fails.
The name "tweedledum" is outside the accepted vocabulary, yet
`PyToCBridge._map_type` returns `c_int`, not the generic pointer
representation `c_void_p` that the claim demands. -/
theorem map_type_unknown_not_void_p :
    PyToCBridge._map_type "tweedledum" = some CType.c_int ∧
      PyToCBridge._map_type "tweedledum" ≠ some CType.c_void_p := by
  constructor
  · rfl
  · decide

/-- C3 (corrected), amended claim: for every type name outside the closed
accepted vocabulary, neither mapping fails, but the call-path mapping
`PyToCBridge._map_type` returns the default `c_int` representation while
`FFIHelper.map_type` (used on the callback/struct path) returns the generic
pointer representation `c_void_p`. -/
theorem map_type_default_reps (t : String)
    (h1 : t ∉ bridgeTypeNames) (h2 : t ∉ ffiTypeNames) :
    PyToCBridge._map_type t = some CType.c_int ∧
      FFIHelper.map_type t = some CType.c_void_p := by
  simp only [bridgeTypeNames, List.mem_cons, List.mem_singleton, not_or] at h1
  simp only [ffiTypeNames, List.mem_cons, List.mem_singleton, not_or] at h2
  obtain ⟨v1, i1, l1, f1, d1, c1, cp1, st1, vp1, pt1, b1, i81, i161, i321, i641,
    u81, u161, u321, u641, -⟩ := h1
  obtain ⟨v2, i2, l2, f2, d2, c2, cp2, w2, vp2, b2, i82, i162, i322, i642,
    u82, u162, u322, u642, sz2, -⟩ := h2
  constructor
  · simp only [PyToCBridge._map_type, if_neg v1, if_neg i1, if_neg l1, if_neg f1,
      if_neg d1, if_neg c1, if_neg cp1, if_neg st1, if_neg vp1, if_neg pt1,
      if_neg b1, if_neg i81, if_neg i161, if_neg i321, if_neg i641,
      if_neg u81, if_neg u161, if_neg u321, if_neg u641]
  · simp only [FFIHelper.map_type, if_neg v2, if_neg i2, if_neg l2, if_neg f2,
      if_neg d2, if_neg c2, if_neg cp2, if_neg w2, if_neg vp2,
      if_neg b2, if_neg i82, if_neg i162, if_neg i322, if_neg i642,
      if_neg u82, if_neg u162, if_neg u322, if_neg u642, if_neg sz2]

/-- C3 witness: the amended theorem applied at the concrete out-of-vocabulary
name "frobnicate". -/
theorem map_type_default_reps_witness :
    PyToCBridge._map_type "frobnicate" = some CType.c_int ∧
      FFIHelper.map_type "frobnicate" = some CType.c_void_p :=
  map_type_default_reps "frobnicate" (by decide) (by decide)

/-- C2 (code_bug): evaluation of the embedded `MemoryManager` at the spec's
failing input `allocate(8)` then `free(p)` twice.  The second `free(p)`
returns normally — `MemoryManager.free` has no error outcome at all — and
the underlying C `free` has by then been invoked twice on the same pointer
(`freeLog = [p, p]`), so the double free is forwarded to the allocator
unguarded instead of signalling `DoubleFreeError`. -/
theorem memory_manager_double_free_silent :
    (MemoryManager.free
        (MemoryManager.free (MemoryManager.allocate MemState.init 8).2
          (MemoryManager.allocate MemState.init 8).1)
        (MemoryManager.allocate MemState.init 8).1).freeLog = [1000, 1000] ∧
    (MemoryManager.free
        (MemoryManager.free (MemoryManager.allocate MemState.init 8).2
          (MemoryManager.allocate MemState.init 8).1)
        (MemoryManager.allocate MemState.init 8).1).allocations = [] := by
  constructor <;> rfl

/-- Check for a UTF-8 continuation byte (0x80–0xBF). -/
def isCont (b : Nat) : Bool := 128 ≤ b && b ≤ 191

/-- Model of Python's UTF-8 encoder (`str.encode('utf-8')`): fails exactly
on lone surrogates and out-of-range code points. -/
def utf8EncodeChar (c : Nat) : Option (List Nat) :=
  if c < 128 then some [c]
  else if c < 2048 then some [192 + c / 64, 128 + c % 64]
  else if c < 65536 then
    if 55296 ≤ c ∧ c ≤ 57343 then Option.none
    else some [224 + c / 4096, 128 + c / 64 % 64, 128 + c % 64]
  else if c < 1114112 then
    some [240 + c / 262144, 128 + c / 4096 % 64, 128 + c / 64 % 64, 128 + c % 64]
  else Option.none

/-- UTF-8 encoding of a whole string (list of code points). -/
def utf8Encode : List Nat → Option (List Nat)
  | [] => some []
  | c :: rest => do
      let b ← utf8EncodeChar c
      let r ← utf8Encode rest
      pure (b ++ r)

/-- Validity of the second byte of a three-byte sequence, per lead byte
(rejects overlong encodings and surrogates as CPython's strict codec does). -/
def cont2Ok3 (b1 b2 : Nat) : Bool :=
  if b1 = 224 then 160 ≤ b2 && b2 ≤ 191
  else if b1 = 237 then 128 ≤ b2 && b2 ≤ 159
  else isCont b2

/-- Validity of the second byte of a four-byte sequence, per lead byte
(rejects overlongs and code points above U+10FFFF). -/
def cont2Ok4 (b1 b2 : Nat) : Bool :=
  if b1 = 240 then 144 ≤ b2 && b2 ≤ 191
  else if b1 = 244 then 128 ≤ b2 && b2 ≤ 143
  else isCont b2

/-- Model of Python's strict UTF-8 decoder (`bytes.decode('utf-8')`):
`Option.none` models a raised `UnicodeDecodeError`. -/
def utf8DecodeStrict : List Nat → Option (List Nat)
  | [] => some []
  | b1 :: rest =>
    if b1 < 128 then (utf8DecodeStrict rest).map (b1 :: ·)
    else if 194 ≤ b1 && b1 ≤ 223 then
      match rest with
      | b2 :: rest2 =>
        if isCont b2 then
          (utf8DecodeStrict rest2).map (((b1 - 192) * 64 + (b2 - 128)) :: ·)
        else Option.none
      | [] => Option.none
    else if 224 ≤ b1 && b1 ≤ 239 then
      match rest with
      | b2 :: b3 :: rest3 =>
        if cont2Ok3 b1 b2 && isCont b3 then
          (utf8DecodeStrict rest3).map
            (((b1 - 224) * 4096 + (b2 - 128) * 64 + (b3 - 128)) :: ·)
        else Option.none
      | _ => Option.none
    else if 240 ≤ b1 && b1 ≤ 244 then
      match rest with
      | b2 :: b3 :: b4 :: rest4 =>
        if cont2Ok4 b1 b2 && isCont b3 && isCont b4 then
          (utf8DecodeStrict rest4).map
            (((b1 - 240) * 262144 + (b2 - 128) * 4096 + (b3 - 128) * 64 + (b4 - 128)) :: ·)
        else Option.none
      | _ => Option.none
    else Option.none

/-- Model of Python's UTF-8 decoder with `errors='replace'`: total; each
maximal invalid subpart becomes U+FFFD (65533) and decoding resumes at the
first offending byte, as in CPython. -/
def utf8DecodeReplace : List Nat → List Nat
  | [] => []
  | b1 :: rest =>
    if b1 < 128 then b1 :: utf8DecodeReplace rest
    else if 194 ≤ b1 && b1 ≤ 223 then
      match rest with
      | b2 :: rest2 =>
        if isCont b2 then ((b1 - 192) * 64 + (b2 - 128)) :: utf8DecodeReplace rest2
        else 65533 :: utf8DecodeReplace (b2 :: rest2)
      | [] => [65533]
    else if 224 ≤ b1 && b1 ≤ 239 then
      match rest with
      | b2 :: rest2 =>
        if cont2Ok3 b1 b2 then
          match rest2 with
          | b3 :: rest3 =>
            if isCont b3 then
              ((b1 - 224) * 4096 + (b2 - 128) * 64 + (b3 - 128)) :: utf8DecodeReplace rest3
            else 65533 :: utf8DecodeReplace (b3 :: rest3)
          | [] => [65533]
        else 65533 :: utf8DecodeReplace (b2 :: rest2)
      | [] => [65533]
    else if 240 ≤ b1 && b1 ≤ 244 then
      match rest with
      | b2 :: rest2 =>
        if cont2Ok4 b1 b2 then
          match rest2 with
          | b3 :: rest3 =>
            if isCont b3 then
              match rest3 with
              | b4 :: rest4 =>
                if isCont b4 then
                  ((b1 - 240) * 262144 + (b2 - 128) * 4096 + (b3 - 128) * 64 + (b4 - 128)) ::
                    utf8DecodeReplace rest4
                else 65533 :: utf8DecodeReplace (b4 :: rest4)
              | [] => [65533]
            else 65533 :: utf8DecodeReplace (b3 :: rest3)
          | [] => [65533]
        else 65533 :: utf8DecodeReplace (b2 :: rest2)
      | [] => [65533]
    else 65533 :: utf8DecodeReplace rest

/-- Truth value of a Python object (`bool(value)`).  For ctypes instances
this is the truthiness of the wrapped value (zero/null is falsy), matching
CPython's ctypes behavior. -/
def pyTruthy : PyVal → Bool
  | .none => false
  | .int n => n != 0
  | .float q => q != 0
  | .bool b => b
  | .str s => !s.isEmpty
  | .bytes bs => !bs.isEmpty
  | .cInstance _ v => pyTruthy v

/-- Decimal digits of a natural number as a list of code points. -/
def natDecimalCps (n : Nat) : List Nat := (Nat.toDigits 10 n).map Char.toNat

/-- Decimal rendering of an integer as a list of code points. -/
def intDecimalCps (n : Int) : List Nat :=
  if n < 0 then 45 :: natDecimalCps n.natAbs else natDecimalCps n.toNat

/-- Code points of a Lean string literal (used for fixed renderings). -/
def stringCps (s : String) : List Nat := s.data.map Char.toNat

/-- Attribute name of a ctypes type (its Python-side identifier). -/
def CType.pyName : CType → String
  | .c_int => "c_int" | .c_long => "c_long" | .c_float => "c_float"
  | .c_double => "c_double" | .c_char => "c_char" | .c_char_p => "c_char_p"
  | .c_wchar_p => "c_wchar_p" | .c_void_p => "c_void_p" | .c_bool => "c_bool"
  | .c_int8 => "c_int8" | .c_int16 => "c_int16" | .c_int32 => "c_int32"
  | .c_int64 => "c_int64" | .c_uint8 => "c_uint8" | .c_uint16 => "c_uint16"
  | .c_uint32 => "c_uint32" | .c_uint64 => "c_uint64" | .c_size_t => "c_size_t"

/-- Model of Python `str(value)`.  The text of non-string renderings
(floats, bytes, ctypes instances) is abbreviated; no verified property
depends on that text, only on `str()` being total. -/
def strPy : PyVal → List Nat
  | .str s => s
  | .int n => intDecimalCps n
  | .bool true => stringCps "True"
  | .bool false => stringCps "False"
  | .none => stringCps "None"
  | .float _ => stringCps "<float repr>"
  | .bytes _ => stringCps "<bytes repr>"
  | .cInstance t _ => stringCps (t.pyName ++ "(...)")

/-- Parse of a Python integer literal (optional sign, decimal digits), as
accepted by `int(str)`/`int(bytes)`; surrounding whitespace and underscore
grouping are not modelled. -/
def parseIntCps (cps : List Nat) : Option Int :=
  let digitsVal : List Nat → Option Nat := fun ds =>
    if ds ≠ [] ∧ ds.all (fun c => 48 ≤ c && c ≤ 57) then
      some (ds.foldl (fun a c => a * 10 + (c - 48)) 0)
    else Option.none
  match cps with
  | 45 :: rest => (digitsVal rest).map (fun n => -(n : Int))
  | 43 :: rest => (digitsVal rest).map (fun n => (n : Int))
  | _ => (digitsVal cps).map (fun n => (n : Int))

/-- Parse of a Python decimal float literal (optional sign, digits with an
optional fraction part), as accepted by `float(str)`; exponents and special
values are not modelled. -/
def parseDecimalCps (cps : List Nat) : Option ℚ :=
  let isDigit : Nat → Bool := fun c => 48 ≤ c && c ≤ 57
  let digitsNat : List Nat → Nat := fun ds => ds.foldl (fun a c => a * 10 + (c - 48)) 0
  let core : List Nat → Option ℚ := fun ds =>
    let ip := ds.takeWhile (fun c => c ≠ 46)
    let rest := ds.dropWhile (fun c => c ≠ 46)
    if ip.all isDigit then
      match rest with
      | [] => if ip ≠ [] then some ((digitsNat ip : ℚ)) else Option.none
      | 46 :: fp =>
        if fp.all isDigit ∧ (ip ≠ [] ∨ fp ≠ []) then
          some ((digitsNat ip : ℚ) + (digitsNat fp : ℚ) / ((10 : ℚ) ^ fp.length))
        else Option.none
      | _ => Option.none
    else Option.none
  match cps with
  | 45 :: rest => (core rest).map (fun q => -q)
  | 43 :: rest => core rest
  | _ => core cps

/-- Model of Python `int(value)`.  On a ctypes instance CPython raises
(`ValueError` via the buffer path), as the empirical behavior of
`int(ctypes.c_int64(42))` shows. -/
def pyIntFn : PyVal → Except PyErr Int
  | .int n => .ok n
  | .bool b => .ok (if b then 1 else 0)
  | .float q => .ok (if q < 0 then q.ceil else q.floor)
  | .str cps =>
    match parseIntCps cps with
    | some n => .ok n
    | Option.none => .error (.valueError "invalid literal for int() with base 10")
  | .bytes bs =>
    match parseIntCps bs with
    | some n => .ok n
    | Option.none => .error (.valueError "invalid literal for int() with base 10")
  | .cInstance _ _ => .error (.valueError "invalid literal for int() with base 10")
  | .none => .error (.typeError "int() argument must not be None")

/-- Model of Python `float(value)`.  On a ctypes instance CPython raises
`ValueError` (empirically, `float(ctypes.c_double(3.5))` raises). -/
def pyFloatFn : PyVal → Except PyErr ℚ
  | .float q => .ok q
  | .int n => .ok (n : ℚ)
  | .bool b => .ok (if b then 1 else 0)
  | .str cps =>
    match parseDecimalCps cps with
    | some q => .ok q
    | Option.none => .error (.valueError "could not convert string to float")
  | .bytes bs =>
    match parseDecimalCps bs with
    | some q => .ok q
    | Option.none => .error (.valueError "could not convert string to float")
  | .cInstance _ _ => .error (.valueError "could not convert string to float")
  | .none => .error (.typeError "float() argument must not be None")

/-- Width and signedness of the ctypes integer types (64-bit platform, as
CPython on Linux x86-64: `c_long` and `c_size_t` are 64-bit). -/
def CType.intSpec : CType → Option (Nat × Bool)
  | .c_int => some (32, true)
  | .c_long => some (64, true)
  | .c_int8 => some (8, true)
  | .c_int16 => some (16, true)
  | .c_int32 => some (32, true)
  | .c_int64 => some (64, true)
  | .c_uint8 => some (8, false)
  | .c_uint16 => some (16, false)
  | .c_uint32 => some (32, false)
  | .c_uint64 => some (64, false)
  | .c_size_t => some (64, false)
  | _ => Option.none

/-- Two's-complement wrap of an integer into a ctypes field of the given
width (ctypes masks silently: `c_int8(300).value == 44`). -/
def wrapInt (bits : Nat) (signed : Bool) (n : Int) : Int :=
  let m := n % ((2 : Int) ^ bits)
  if signed ∧ (2 : Int) ^ (bits - 1) ≤ m then m - (2 : Int) ^ bits else m

/-- Model of constructing a ctypes instance `ct(v)`: integer types accept
ints and bools (masking silently), float types accept real numbers,
`c_bool` accepts anything by truthiness, pointer types accept
ints/None/bytes-or-str as appropriate; everything else raises `TypeError`,
matching the CPython ctypes constructors. -/
def ctypesConstruct (ct : CType) (v : PyVal) : Except PyErr PyVal :=
  match ct.intSpec with
  | some (bits, signed) =>
    match v with
    | .int n => .ok (.cInstance ct (.int (wrapInt bits signed n)))
    | .bool b => .ok (.cInstance ct (.int (wrapInt bits signed (if b then 1 else 0))))
    | _ => .error (.typeError "an integer is required")
  | Option.none =>
    match ct with
    | .c_bool => .ok (.cInstance .c_bool (.bool (pyTruthy v)))
    | .c_float =>
      match v with
      | .int n => .ok (.cInstance .c_float (.float (n : ℚ)))
      | .float q => .ok (.cInstance .c_float (.float q))
      | .bool b => .ok (.cInstance .c_float (.float (if b then 1 else 0)))
      | _ => .error (.typeError "must be real number")
    | .c_double =>
      match v with
      | .int n => .ok (.cInstance .c_double (.float (n : ℚ)))
      | .float q => .ok (.cInstance .c_double (.float q))
      | .bool b => .ok (.cInstance .c_double (.float (if b then 1 else 0)))
      | _ => .error (.typeError "must be real number")
    | .c_char =>
      match v with
      | .int n =>
        if 0 ≤ n ∧ n < 256 then .ok (.cInstance .c_char (.int n))
        else .error (.typeError "one character bytes expected")
      | .bytes [b] => .ok (.cInstance .c_char (.bytes [b]))
      | _ => .error (.typeError "one character bytes expected")
    | .c_char_p =>
      match v with
      | .bytes bs => .ok (.cInstance .c_char_p (.bytes bs))
      | .int n => .ok (.cInstance .c_char_p (.int n))
      | .none => .ok (.cInstance .c_char_p .none)
      | _ => .error (.typeError "bytes or integer address expected")
    | .c_wchar_p =>
      match v with
      | .str s => .ok (.cInstance .c_wchar_p (.str s))
      | .int n => .ok (.cInstance .c_wchar_p (.int n))
      | .none => .ok (.cInstance .c_wchar_p .none)
      | _ => .error (.typeError "unicode string or integer address expected")
    | .c_void_p =>
      match v with
      | .int n => .ok (.cInstance .c_void_p (.int n))
      | .none => .ok (.cInstance .c_void_p .none)
      | _ => .error (.typeError "cannot be converted to pointer")
    | _ => .error (.typeError "unsupported")

/-- Model of `getattr(ctypes, c_type, None)` restricted to the primitive
type names the converter can meet. -/
def getattrCtypes (name : String) : Option CType :=
  if name = "c_int" then some .c_int
  else if name = "c_long" then some .c_long
  else if name = "c_float" then some .c_float
  else if name = "c_double" then some .c_double
  else if name = "c_char" then some .c_char
  else if name = "c_char_p" then some .c_char_p
  else if name = "c_wchar_p" then some .c_wchar_p
  else if name = "c_void_p" then some .c_void_p
  else if name = "c_bool" then some .c_bool
  else if name = "c_int8" then some .c_int8
  else if name = "c_int16" then some .c_int16
  else if name = "c_int32" then some .c_int32
  else if name = "c_int64" then some .c_int64
  else if name = "c_uint8" then some .c_uint8
  else if name = "c_uint16" then some .c_uint16
  else if name = "c_uint32" then some .c_uint32
  else if name = "c_uint64" then some .c_uint64
  else if name = "c_size_t" then some .c_size_t
  else Option.none

/-- Embedding of `TypeConverter.py_to_c` (type_converter.py): `None` becomes
`c_void_p(0)`; a `str` is UTF-8-encoded (regardless of `c_type`); with no
`c_type`, `PY_TO_C_MAP` maps int to `c_int64`, float to `c_double`, bool to
`c_bool` and bytes to `c_char_p`; with an explicit `c_type`, the
`getattr(ctypes, c_type, None)` class is constructed; otherwise the value
is returned unchanged. -/
def TypeConverter.py_to_c (value : PyVal) (c_type : Option String) : Except PyErr PyVal :=
  match value with
  | .none => .ok (.cInstance .c_void_p (.int 0))
  | .str cps =>
    match utf8Encode cps with
    | some bs => .ok (.bytes bs)
    | Option.none => .error .unicodeEncodeError
  | v =>
    match c_type with
    | Option.none =>
      match v with
      | .int n => ctypesConstruct .c_int64 (.int n)
      | .float q => ctypesConstruct .c_double (.float q)
      | .bool b => ctypesConstruct .c_bool (.bool b)
      | .bytes bs => ctypesConstruct .c_char_p (.bytes bs)
      | w => .ok w
    | some t =>
      match getattrCtypes t with
      | some ct => ctypesConstruct ct v
      | Option.none => .ok v

/-- Application of `C_TO_PY_MAP[c_type]` to a value inside
`TypeConverter.c_to_py`: the mapped Python type constructor (`int`,
`float`, `str`, `bool`) is applied to the value. -/
def TypeConverter.c_to_py_map_apply (c_type : String) (v : PyVal) : Except PyErr PyVal :=
  if c_type = "c_int" ∨ c_type = "c_int32" ∨ c_type = "c_int64" ∨ c_type = "c_long" then
    (pyIntFn v).map .int
  else if c_type = "c_float" ∨ c_type = "c_double" then
    (pyFloatFn v).map .float
  else if c_type = "c_char_p" then .ok (.str (strPy v))
  else if c_type = "c_bool" then .ok (.bool (pyTruthy v))
  else .ok v

/-- Embedding of `TypeConverter.c_to_py` (type_converter.py): `None` passes
through; bytes under `c_char_p`/`char*` decode as UTF-8 with
`errors='replace'`; a `c_type` present in `C_TO_PY_MAP` applies the mapped
Python type; anything else is returned unchanged. -/
def TypeConverter.c_to_py (value : PyVal) (c_type : String) : Except PyErr PyVal :=
  match value with
  | .none => .ok .none
  | .bytes bs =>
    if c_type = "c_char_p" ∨ c_type = "char*" then .ok (.str (utf8DecodeReplace bs))
    else TypeConverter.c_to_py_map_apply c_type (.bytes bs)
  | v => TypeConverter.c_to_py_map_apply c_type v

/-- Embedding of `PyToCBridge._py_to_c` (py_to_c_bridge.py): under a
`string`/`char*` hint a `str` is UTF-8-encoded; every other value passes
through unchanged. -/
def PyToCBridge._py_to_c (value : PyVal) (type_hint : Option String) : Except PyErr PyVal :=
  if type_hint = some "string" ∨ type_hint = some "char*" then
    match value with
    | .str cps =>
      match utf8Encode cps with
      | some bs => .ok (.bytes bs)
      | Option.none => .error .unicodeEncodeError
    | v => .ok v
  else .ok value

/-- Embedding of `PyToCBridge._c_to_py` (py_to_c_bridge.py): under a
`string`/`char*` hint bytes are decoded with the STRICT UTF-8 codec
(`value.decode('utf-8')`, no `errors=` argument), so malformed bytes raise
`UnicodeDecodeError`; every other value passes through unchanged. -/
def PyToCBridge._c_to_py (value : PyVal) (type_hint : String) : Except PyErr PyVal :=
  if type_hint = "string" ∨ type_hint = "char*" then
    match value with
    | .bytes bs =>
      match utf8DecodeStrict bs with
      | some cps => .ok (.str cps)
      | Option.none => .error .unicodeDecodeError
    | v => .ok v
  else .ok value

/-- C8 (code_bug): the round-trip fails for the most basic primitive type.
At `v = 42`, `T = Int64` (the module's own demo input), `py_to_c 42` builds
the ctypes instance `c_int64(42)`, and `c_to_py` then applies Python's
`int()` to that instance, which raises `ValueError` — the composition
crashes instead of returning 42. -/
theorem type_converter_roundtrip_int_crashes :
    TypeConverter.py_to_c (.int 42) Option.none = .ok (.cInstance .c_int64 (.int 42)) ∧
    TypeConverter.c_to_py (.cInstance .c_int64 (.int 42)) "c_int64" =
      .error (.valueError "invalid literal for int() with base 10") := by
  constructor <;> rfl

/-- C9 (corrected), counterexample: on the bridge path the claim fails.
`PyToCBridge._c_to_py` decodes CString result bytes with the STRICT UTF-8
codec, so the malformed byte sequence `[0xFF]` raises `UnicodeDecodeError`
instead of being decoded with replacement. -/
theorem bridge_c_to_py_strict_decode_raises :
    PyToCBridge._c_to_py (.bytes [255]) "string" = .error .unicodeDecodeError ∧
      PyToCBridge._c_to_py (.bytes [255]) "char*" = .error .unicodeDecodeError := by
  constructor <;> rfl

/-- C9 (corrected), amended claim: on the `TypeConverter.c_to_py` path,
CString bytes are decoded as UTF-8 with the replace-invalid-sequences
policy and the conversion never raises, for every byte sequence; the
bridge's own `_c_to_py` path decodes strictly and can raise. -/
theorem type_converter_cstring_replace_total (bs : List Nat) :
    TypeConverter.c_to_py (.bytes bs) "c_char_p" = .ok (.str (utf8DecodeReplace bs)) ∧
    TypeConverter.c_to_py (.bytes bs) "char*" = .ok (.str (utf8DecodeReplace bs)) := by
  constructor <;> rfl

/-- Behavior of a resolved native function as observed through ctypes: the
converted argument vector goes in, the Python-level result (already shaped
by the declared restype) comes out.  ctypes-level per-argument coercion is
abstracted into the function itself; a coercion failure there would abort
before the native body runs, which only strengthens the fail-closed
properties proved below. -/
def NativeFun := List PyVal → PyVal

/-- Hint selection for argument `i` in `call_c_function`'s comprehension:
Python's `arg_types[i] if arg_types else None`.  A `None` or empty
`arg_types` is falsy, so the hint is `None`; a nonempty list is indexed and
can raise `IndexError`. -/
def PyToCBridge.arg_hint (argTypes : Option (List String)) (i : Nat) :
    Except PyErr (Option String) :=
  match argTypes with
  | some (t :: ts) =>
    match (t :: ts)[i]? with
    | some ty => .ok (some ty)
    | Option.none => .error .indexError
  | _ => .ok Option.none

/-- The argument-conversion comprehension of `call_c_function`: arguments
are converted left to right; the first raised exception (IndexError from
the hint lookup or UnicodeEncodeError from `_py_to_c`) aborts the whole
comprehension. -/
def PyToCBridge.convert_args (argTypes : Option (List String)) :
    Nat → List PyVal → Except PyErr (List PyVal)
  | _, [] => .ok []
  | i, a :: rest =>
    match PyToCBridge.arg_hint argTypes i with
    | .error e => .error e
    | .ok hint =>
      match PyToCBridge._py_to_c a hint with
      | .error e => .error e
      | .ok c =>
        match PyToCBridge.convert_args argTypes (i + 1) rest with
        | .error e => .error e
        | .ok cs => .ok (c :: cs)

/-- Embedding of `PyToCBridge.call_c_function` (py_to_c_bridge.py).
`resolve` models `get_function` (library loading plus `getattr`); the
second component of the result counts native invocations.  Setting
`func.restype`/`func.argtypes` is absorbed into the oracle; the observable
ctypes rule kept is: when `arg_types` is truthy (a nonempty list) and fewer
converted arguments than declared types are supplied, the ctypes call
raises `TypeError` without invoking the native function; surplus arguments
are passed through. -/
def PyToCBridge.call_c_function (resolve : String → String → Option NativeFun)
    (lib_path func_name : String) (args : List PyVal)
    (return_type : String) (arg_types : Option (List String)) :
    Except PyErr PyVal × Nat :=
  match resolve lib_path func_name with
  | Option.none => (.error (.runtimeError "Cannot call function"), 0)
  | some f =>
    match PyToCBridge.convert_args arg_types 0 args with
    | .error e => (.error e, 0)
    | .ok c_args =>
      match arg_types with
      | some (t :: ts) =>
        if c_args.length < (t :: ts).length then
          (.error (.typeError "this function takes more arguments"), 0)
        else (PyToCBridge._c_to_py (f c_args) return_type, 1)
      | _ => (PyToCBridge._c_to_py (f c_args) return_type, 1)

/-- Test resolver: every symbol resolves to a native function returning the
sentinel 7. -/
def exampleResolve : String → String → Option NativeFun :=
  fun _ _ => some (fun _ => .int 7)

/-- A successful conversion pass preserves the argument count. -/
theorem convert_args_length (argTypes : Option (List String)) :
    ∀ (args : List PyVal) (i : Nat) (cs : List PyVal),
      PyToCBridge.convert_args argTypes i args = .ok cs → cs.length = args.length := by
  intro args
  induction args with
  | nil =>
    intro i cs h
    simp only [PyToCBridge.convert_args] at h
    cases h
    rfl
  | cons a rest ih =>
    intro i cs h
    simp only [PyToCBridge.convert_args] at h
    cases h1 : PyToCBridge.arg_hint argTypes i with
    | error e => simp [h1] at h
    | ok hint =>
      simp only [h1] at h
      cases h2 : PyToCBridge._py_to_c a hint with
      | error e => simp [h2] at h
      | ok c =>
        simp only [h2] at h
        cases h3 : PyToCBridge.convert_args argTypes (i + 1) rest with
        | error e => simp [h3] at h
        | ok cs2 =>
          simp only [h3] at h
          cases h
          simp [ih (i + 1) cs2 h3]

/-- With a nonempty declared type list, a conversion pass that runs past
the declared arity necessarily raises (IndexError at the first
out-of-range index, unless an earlier conversion already raised). -/
theorem convert_args_overflow (t : String) (ts : List String) :
    ∀ (args : List PyVal) (i : Nat), args ≠ [] → (t :: ts).length < i + args.length →
      ∃ e, PyToCBridge.convert_args (some (t :: ts)) i args = .error e := by
  intro args
  induction args with
  | nil => intro i hne _; exact absurd rfl hne
  | cons a rest ih =>
    intro i _ hlen
    simp only [List.length_cons] at hlen
    by_cases hi : i < (t :: ts).length
    · have h1 : PyToCBridge.arg_hint (some (t :: ts)) i = .ok (some ((t :: ts)[i])) := by
        simp [PyToCBridge.arg_hint, List.getElem?_eq_getElem hi]
      cases h2 : PyToCBridge._py_to_c a (some ((t :: ts)[i])) with
      | error e =>
        exact ⟨e, by simp only [PyToCBridge.convert_args, h1, h2]⟩
      | ok c =>
        simp only [List.length_cons] at hi
        have hrest : rest ≠ [] := by
          intro hr
          subst hr
          simp only [List.length_nil] at hlen
          omega
        obtain ⟨e, he⟩ := ih (i + 1) hrest (by simp only [List.length_cons]; omega)
        exact ⟨e, by simp only [PyToCBridge.convert_args, h1, h2, he]⟩
    · have h1 : PyToCBridge.arg_hint (some (t :: ts)) i = .error .indexError := by
        simp [PyToCBridge.arg_hint, List.getElem?_eq_none (Nat.le_of_not_lt hi)]
      exact ⟨.indexError, by simp only [PyToCBridge.convert_args, h1]⟩

/-- C1 (corrected), counterexample: a descriptor whose declared
argument-type sequence is empty (`arg_types = []`, as registered by the
dispatcher when no types are given) called with one surplus argument does
not fail with `ArityError` — the call succeeds and the native function is
invoked (once). -/
theorem call_no_arity_check_counterexample :
    PyToCBridge.call_c_function exampleResolve "libm.so" "fn" [.int 1] "int" (some []) =
      (.ok (.int 7), 1) := by
  rfl

/-- C1 (corrected), amended claim: the code performs no arity validation
and has no `ArityError`.  For a nonempty declared argument-type sequence
and an argument list of different length, the call still fails without
invoking the native function — but only via an `IndexError` raised while
converting the surplus arguments (after the in-range prefix has been
converted), or via the ctypes `TypeError` at invocation setup when
arguments are missing; for an empty declared sequence no check happens at
all and the native function is invoked regardless of the argument count. -/
theorem call_arity_mismatch_fails_without_invocation
    (resolve : String → String → Option NativeFun) (lib fn rt : String)
    (args : List PyVal) (ts : List String)
    (hne : ts ≠ []) (hlen : args.length ≠ ts.length) :
    ∃ e, PyToCBridge.call_c_function resolve lib fn args rt (some ts) = (.error e, 0) := by
  obtain ⟨t, ts', rfl⟩ := List.exists_cons_of_ne_nil hne
  cases hres : resolve lib fn with
  | none =>
    exact ⟨.runtimeError "Cannot call function",
      by simp [PyToCBridge.call_c_function, hres]⟩
  | some f =>
    cases hc : PyToCBridge.convert_args (some (t :: ts')) 0 args with
    | error e =>
      exact ⟨e, by simp [PyToCBridge.call_c_function, hres, hc]⟩
    | ok cs =>
      have hcs : cs.length = args.length := convert_args_length _ args 0 cs hc
      rcases Nat.lt_or_ge args.length (t :: ts').length with hlt | hge
      · refine ⟨.typeError "this function takes more arguments", ?_⟩
        simp only [PyToCBridge.call_c_function, hres, hc, hcs]
        rw [if_pos hlt]
      · have hgt : (t :: ts').length < args.length :=
          lt_of_le_of_ne hge (fun hh => hlen hh.symm)
        have hargsne : args ≠ [] := by
          intro h
          subst h
          simp at hgt
        obtain ⟨e, he⟩ := convert_args_overflow t ts' args 0 hargsne (by omega)
        rw [he] at hc
        cases hc

/-- C1 witness: the amended theorem applied at the concrete descriptor
declaring one `int` argument and an empty argument list. -/
theorem call_arity_mismatch_witness :
    ∃ e, PyToCBridge.call_c_function exampleResolve "libm.so" "fn" [] "int" (some ["int"]) =
      (.error e, 0) :=
  call_arity_mismatch_fails_without_invocation exampleResolve "libm.so" "fn" "int" [] ["int"]
    (by decide) (by decide)

/-- C4 (confirmed): fail-closed marshalling.  (1) If the in-order argument
conversion comprehension raises, the call returns that error and the
native function is invoked zero times.  (2) Whenever the call returns a
value, the native function was invoked exactly once.  (3) Conversion is
one-by-one in declared order: a failure on the head argument aborts the
comprehension immediately, irrespective of the remaining arguments. -/
theorem call_fail_closed_marshalling
    (resolve : String → String → Option NativeFun) (lib fn rt : String)
    (argTypes : Option (List String)) (args : List PyVal) :
    (∀ (f : NativeFun) (e : PyErr), resolve lib fn = some f →
        PyToCBridge.convert_args argTypes 0 args = .error e →
        PyToCBridge.call_c_function resolve lib fn args rt argTypes = (.error e, 0)) ∧
    (∀ (v : PyVal) (n : Nat),
        PyToCBridge.call_c_function resolve lib fn args rt argTypes = (.ok v, n) → n = 1) ∧
    (∀ (i : Nat) (a : PyVal) (rest : List PyVal) (hint : Option String) (e : PyErr),
        PyToCBridge.arg_hint argTypes i = .ok hint →
        PyToCBridge._py_to_c a hint = .error e →
        PyToCBridge.convert_args argTypes i (a :: rest) = .error e) := by
  refine ⟨?_, ?_, ?_⟩
  · intro f e hres hconv
    simp [PyToCBridge.call_c_function, hres, hconv]
  · intro v n hcall
    cases hres : resolve lib fn with
    | none => simp [PyToCBridge.call_c_function, hres] at hcall
    | some f =>
      cases hconv : PyToCBridge.convert_args argTypes 0 args with
      | error e => simp [PyToCBridge.call_c_function, hres, hconv] at hcall
      | ok cs =>
        simp only [PyToCBridge.call_c_function, hres, hconv] at hcall
        match argTypes, hcall with
        | some (t :: ts), hcall =>
          simp only at hcall
          by_cases hlt : cs.length < (t :: ts).length
          · rw [if_pos hlt] at hcall
            cases hcall
          · rw [if_neg hlt] at hcall
            exact (Prod.mk.injEq _ _ _ _ ▸ hcall).2.symm ▸ rfl
        | some [], hcall =>
          exact (Prod.mk.injEq _ _ _ _ ▸ hcall).2.symm ▸ rfl
        | Option.none, hcall =>
          exact (Prod.mk.injEq _ _ _ _ ▸ hcall).2.symm ▸ rfl
  · intro i a rest hint e h1 h2
    simp only [PyToCBridge.convert_args, h1, h2]

/-- C4 witness: the fail-closed theorem applied at concrete inputs — a
lone-surrogate string whose UTF-8 encoding fails makes the call abort with
zero native invocations; a well-typed call invokes exactly once; and a
head-argument conversion failure aborts the comprehension no matter what
follows. -/
theorem call_fail_closed_marshalling_witness :
    PyToCBridge.call_c_function exampleResolve "lib" "f" [.str [55296]] "int"
        (some ["string"]) = (.error .unicodeEncodeError, 0) ∧
    (PyToCBridge.call_c_function exampleResolve "lib" "f" [.int 1] "int"
        (some ["int"])).2 = 1 ∧
    PyToCBridge.convert_args (some ["string"]) 0 [.str [55296], .int 5] =
      .error .unicodeEncodeError := by
  refine ⟨?_, ?_, ?_⟩
  · exact (call_fail_closed_marshalling exampleResolve "lib" "f" "int"
      (some ["string"]) [.str [55296]]).1 (fun _ => .int 7) .unicodeEncodeError rfl rfl
  · exact (call_fail_closed_marshalling exampleResolve "lib" "f" "int"
      (some ["int"]) [.int 1]).2.1 (.int 7) 1 rfl
  · exact (call_fail_closed_marshalling exampleResolve "lib" "f" "int"
      (some ["string"]) [.str [55296], .int 5]).2.2 0 (.str [55296]) [.int 5]
      (some "string") .unicodeEncodeError rfl rfl

/-- State of the `PyToCBridge` library cache: `loaded_libs` is the
`path ↦ handle` dict (handles modelled as numbers, identity-comparable),
and `loadLog` records every underlying `ctypes.CDLL(lib_path)` attempt in
order, so redundant native loads are observable. -/
structure BridgeState where
  loaded_libs : List (String × Nat)
  loadLog : List String
deriving DecidableEq, Repr

/-- Embedding of `PyToCBridge.load_library` (py_to_c_bridge.py): a cached
path returns the cached handle with no native load; otherwise
`ctypes.CDLL` is attempted (logged) — on success the handle is cached and
returned, on `OSError` a message is printed and `None` is returned without
caching, so a later call retries the native load.  `dlopen` is the pure
oracle for the native loader's outcome per path. -/
def PyToCBridge.load_library (dlopen : String → Option Nat) (s : BridgeState)
    (lib_path : String) : Option Nat × BridgeState :=
  match s.loaded_libs.lookup lib_path with
  | some h => (some h, s)
  | Option.none =>
    let s1 : BridgeState := { s with loadLog := s.loadLog ++ [lib_path] }
    match dlopen lib_path with
    | some h => (some h, { s1 with loaded_libs := (lib_path, h) :: s1.loaded_libs })
    | Option.none => (Option.none, s1)

/-- C7 (confirmed): with a path not yet cached, (success case) a first
successful load returns the handle, caches it and performs one native
load, and a second load of the same path returns the identical handle
from the cache with no further native load; (failure case) a failed load
returns `None` and does not touch the cache, and a second load of the
same path attempts the native load again (the log grows both times). -/
theorem load_library_idempotent_retry
    (dlopen : String → Option Nat) (s : BridgeState) (p : String)
    (hfresh : s.loaded_libs.lookup p = Option.none) :
    (∀ h : Nat, dlopen p = some h →
      PyToCBridge.load_library dlopen s p =
        (some h, { loaded_libs := (p, h) :: s.loaded_libs, loadLog := s.loadLog ++ [p] }) ∧
      PyToCBridge.load_library dlopen
          { loaded_libs := (p, h) :: s.loaded_libs, loadLog := s.loadLog ++ [p] } p =
        (some h, { loaded_libs := (p, h) :: s.loaded_libs, loadLog := s.loadLog ++ [p] })) ∧
    (dlopen p = Option.none →
      PyToCBridge.load_library dlopen s p =
        (Option.none, { loaded_libs := s.loaded_libs, loadLog := s.loadLog ++ [p] }) ∧
      PyToCBridge.load_library dlopen
          { loaded_libs := s.loaded_libs, loadLog := s.loadLog ++ [p] } p =
        (Option.none, { loaded_libs := s.loaded_libs, loadLog := s.loadLog ++ [p] ++ [p] })) := by
  constructor
  · intro h hd
    constructor
    · simp [PyToCBridge.load_library, hfresh, hd]
    · simp [PyToCBridge.load_library, List.lookup]
  · intro hd
    constructor
    · simp [PyToCBridge.load_library, hfresh, hd]
    · simp [PyToCBridge.load_library, hfresh, hd]

/-- Test loader oracle: "liba.so" loads with handle 7, everything else
fails. -/
def exampleDlopen : String → Option Nat :=
  fun p => if p = "liba.so" then some 7 else Option.none

/-- C7 witness: the cache theorem applied at a concrete succeeding path and
a concrete failing path, from the empty cache. -/
theorem load_library_idempotent_retry_witness :
    (PyToCBridge.load_library exampleDlopen ⟨[], []⟩ "liba.so" =
        (some 7, { loaded_libs := [("liba.so", 7)], loadLog := ["liba.so"] }) ∧
      PyToCBridge.load_library exampleDlopen
          { loaded_libs := [("liba.so", 7)], loadLog := ["liba.so"] } "liba.so" =
        (some 7, { loaded_libs := [("liba.so", 7)], loadLog := ["liba.so"] })) ∧
    (PyToCBridge.load_library exampleDlopen ⟨[], []⟩ "libmissing.so" =
        (Option.none, { loaded_libs := [], loadLog := ["libmissing.so"] }) ∧
      PyToCBridge.load_library exampleDlopen
          { loaded_libs := [], loadLog := ["libmissing.so"] } "libmissing.so" =
        (Option.none, { loaded_libs := [], loadLog := ["libmissing.so", "libmissing.so"] })) := by
  constructor
  · exact (load_library_idempotent_retry exampleDlopen ⟨[], []⟩ "liba.so" rfl).1 7 rfl
  · have h := (load_library_idempotent_retry exampleDlopen ⟨[], []⟩ "libmissing.so" rfl).2
      (by decide)
    exact ⟨h.1, h.2.trans (by rfl)⟩

/-- Registration record of a C-backed operation
(`OperationDispatcher.register_c_operation`). -/
structure COpInfo where
  lib : String
  func : String
  return_type : String
  arg_types : List String
deriving DecidableEq, Repr

/-- State of an `OperationDispatcher` (op_dispatcher.py): the two
registries (dicts modelled as functions, so a later registration for the
same key overwrites) and the default backend string set in `__init__`. -/
structure OperationDispatcher where
  c_ops : String → Option COpInfo
  py_ops : String → Option (List PyVal → Except PyErr PyVal)
  default_backend : String

/-- Embedding of `OperationDispatcher.__init__`: empty registries and
`default_backend = 'python'`. -/
def OperationDispatcher.init : OperationDispatcher :=
  { c_ops := fun _ => Option.none
    py_ops := fun _ => Option.none
    default_backend := "python" }

/-- Embedding of `register_c_operation`: stores the descriptor under the
operation name (`arg_types or []` defaults the type list); a second
registration for the same name overwrites. -/
def OperationDispatcher.register_c_operation (d : OperationDispatcher)
    (op_name lib_path func_name return_type : String)
    (arg_types : Option (List String)) : OperationDispatcher :=
  { d with c_ops := fun n =>
      if n = op_name then some ⟨lib_path, func_name, return_type, arg_types.getD []⟩
      else d.c_ops n }

/-- Embedding of `register_py_operation`: stores the callable under the
operation name; a second registration overwrites. -/
def OperationDispatcher.register_py_operation (d : OperationDispatcher)
    (op_name : String) (f : List PyVal → Except PyErr PyVal) : OperationDispatcher :=
  { d with py_ops := fun n => if n = op_name then some f else d.py_ops n }

/-- Embedding of `_dispatch_c`: an unregistered name raises the
`ValueError` "C operation not registered"; otherwise the stored descriptor
drives `call_c_function` (whose second component counts native
invocations). -/
def OperationDispatcher._dispatch_c (d : OperationDispatcher)
    (resolve : String → String → Option NativeFun) (op_name : String)
    (args : List PyVal) : Except PyErr PyVal × Nat :=
  match d.c_ops op_name with
  | Option.none => (.error (.valueError ("C operation not registered: " ++ op_name)), 0)
  | some info =>
    PyToCBridge.call_c_function resolve info.lib info.func args info.return_type
      (some info.arg_types)

/-- Embedding of `_dispatch_py`: an unregistered name raises the
`ValueError` "Python operation not registered"; otherwise the host
callable runs (the second component counts host invocations). -/
def OperationDispatcher._dispatch_py (d : OperationDispatcher) (op_name : String)
    (args : List PyVal) : Except PyErr PyVal × Nat :=
  match d.py_ops op_name with
  | Option.none => (.error (.valueError ("Python operation not registered: " ++ op_name)), 0)
  | some f => (f args, 1)

/-- Embedding of `OperationDispatcher.dispatch`: `backend or
self.default_backend` (so `None` and the empty string fall back to the
default); backend `'c'`, or `'auto'` with a C registration, goes native;
else backend `'python'`, or `'auto'` with a Python registration, goes to
the host; else the `ValueError` "Operation not found" is raised.  Result
is (outcome, native invocation count, host invocation count). -/
def OperationDispatcher.dispatch (d : OperationDispatcher)
    (resolve : String → String → Option NativeFun) (op_name : String)
    (args : List PyVal) (backend : Option String) :
    Except PyErr PyVal × Nat × Nat :=
  let b := match backend with
    | some s => if s = "" then d.default_backend else s
    | Option.none => d.default_backend
  if b = "c" ∨ (b = "auto" ∧ (d.c_ops op_name).isSome) then
    let r := OperationDispatcher._dispatch_c d resolve op_name args
    (r.1, r.2, 0)
  else if b = "python" ∨ (b = "auto" ∧ (d.py_ops op_name).isSome) then
    let r := OperationDispatcher._dispatch_py d op_name args
    (r.1, 0, r.2)
  else
    (.error (.valueError ("Operation not found: " ++ op_name)), 0, 0)

/-- Embedding of `has_operation`: backend `'c'` or `'python'` checks the
respective registry; any other (or absent) backend checks both. -/
def OperationDispatcher.has_operation (d : OperationDispatcher) (op_name : String)
    (backend : Option String) : Bool :=
  if backend = some "c" then (d.c_ops op_name).isSome
  else if backend = some "python" then (d.py_ops op_name).isSome
  else (d.c_ops op_name).isSome || (d.py_ops op_name).isSome

/-- C5 (confirmed): Auto backend precedence.  With a C (Native)
registration, `'auto'` dispatch routes to the C path (zero host
invocations); with only a Python (Host) registration, it runs the host
callable; with neither, it raises the "Operation not found" `ValueError`
(the code's operation-not-found error). -/
theorem dispatch_auto_precedence (d : OperationDispatcher)
    (resolve : String → String → Option NativeFun) (name : String) (args : List PyVal) :
    ((d.c_ops name).isSome = true →
      d.dispatch resolve name args (some "auto") =
        ((d._dispatch_c resolve name args).1, (d._dispatch_c resolve name args).2, 0)) ∧
    (d.c_ops name = Option.none →
      ∀ f : List PyVal → Except PyErr PyVal, d.py_ops name = some f →
        d.dispatch resolve name args (some "auto") = (f args, 0, 1)) ∧
    (d.c_ops name = Option.none → d.py_ops name = Option.none →
      d.dispatch resolve name args (some "auto") =
        (.error (.valueError ("Operation not found: " ++ name)), 0, 0)) := by
  refine ⟨?_, ?_, ?_⟩
  · intro h
    simp [OperationDispatcher.dispatch, h]
  · intro hc f hf
    simp [OperationDispatcher.dispatch, OperationDispatcher._dispatch_py, hc, hf]
  · intro hc hp
    simp [OperationDispatcher.dispatch, hc, hp]

/-- C6 (confirmed): explicit-hint isolation.  Hint `'python'` (Host) with
no Python registration raises the "Python operation not registered"
`ValueError` with zero native invocations — the Native implementation is
never executed, whatever the C registry holds; symmetrically, hint `'c'`
(Native) with no C registration raises the "C operation not registered"
`ValueError` with zero host invocations. -/
theorem dispatch_explicit_hint_isolation (d : OperationDispatcher)
    (resolve : String → String → Option NativeFun) (name : String) (args : List PyVal) :
    (d.py_ops name = Option.none →
      d.dispatch resolve name args (some "python") =
        (.error (.valueError ("Python operation not registered: " ++ name)), 0, 0)) ∧
    (d.c_ops name = Option.none →
      d.dispatch resolve name args (some "c") =
        (.error (.valueError ("C operation not registered: " ++ name)), 0, 0)) := by
  constructor
  · intro hp
    simp [OperationDispatcher.dispatch, OperationDispatcher._dispatch_py, hp]
  · intro hc
    simp [OperationDispatcher.dispatch, OperationDispatcher._dispatch_c, hc]

/-- C10 (confirmed): with a name registered only in the C registry,
`has_operation` with no backend hint reports true, yet `dispatch` with no
backend hint uses the default backend `'python'` (not `'auto'`), reaches
`_dispatch_py`, and raises the "Python operation not registered"
`ValueError` instead of executing the registered C implementation. -/
theorem dispatch_default_backend_mismatch (d : OperationDispatcher)
    (resolve : String → String → Option NativeFun) (name : String) (args : List PyVal)
    (info : COpInfo) (hdef : d.default_backend = "python")
    (hc : d.c_ops name = some info) (hp : d.py_ops name = Option.none) :
    d.has_operation name Option.none = true ∧
    d.dispatch resolve name args Option.none =
      (.error (.valueError ("Python operation not registered: " ++ name)), 0, 0) := by
  constructor
  · simp [OperationDispatcher.has_operation, hc]
  · simp [OperationDispatcher.dispatch, OperationDispatcher._dispatch_py, hdef, hp]

/-- Host implementation used as a test fixture (returns the sum, a value
distinguishable from the native sentinel 7). -/
def exampleHostAdd : List PyVal → Except PyErr PyVal := fun args =>
  match args with
  | [.int a, .int b] => .ok (.int (a + b))
  | _ => .error (.typeError "unsupported operands")

/-- Dispatcher fixture with both a Native and a Host registration for
"add". -/
def exampleDispatcherBoth : OperationDispatcher :=
  (OperationDispatcher.init.register_c_operation "add" "libm.so" "c_add" "int"
      (some ["int", "int"])).register_py_operation "add" exampleHostAdd

/-- Dispatcher fixture with only a Host registration for "add". -/
def exampleDispatcherHostOnly : OperationDispatcher :=
  OperationDispatcher.init.register_py_operation "add" exampleHostAdd

/-- Dispatcher fixture with only a Native registration for "mul". -/
def exampleDispatcherCOnly : OperationDispatcher :=
  OperationDispatcher.init.register_c_operation "mul" "libm.so" "c_mul" "int"
    (some ["int", "int"])

/-- C5 witness: the precedence theorem applied at concrete dispatchers —
both backends registered gives the native sentinel 7 (not the host's 5),
host-only gives the host's 5, neither gives the operation-not-found
error. -/
theorem dispatch_auto_precedence_witness :
    exampleDispatcherBoth.dispatch exampleResolve "add" [.int 2, .int 3] (some "auto") =
      (.ok (.int 7), 1, 0) ∧
    exampleDispatcherHostOnly.dispatch exampleResolve "add" [.int 2, .int 3] (some "auto") =
      (.ok (.int 5), 0, 1) ∧
    exampleDispatcherHostOnly.dispatch exampleResolve "nosuch" [] (some "auto") =
      (.error (.valueError ("Operation not found: " ++ "nosuch")), 0, 0) := by
  refine ⟨?_, ?_, ?_⟩
  · exact ((dispatch_auto_precedence exampleDispatcherBoth exampleResolve "add"
      [.int 2, .int 3]).1 rfl).trans rfl
  · exact ((dispatch_auto_precedence exampleDispatcherHostOnly exampleResolve "add"
      [.int 2, .int 3]).2.1 rfl exampleHostAdd rfl).trans rfl
  · exact (dispatch_auto_precedence exampleDispatcherHostOnly exampleResolve "nosuch"
      []).2.2 rfl rfl

/-- C6 witness: the isolation theorem applied at concrete dispatchers — a
Host hint against a Native-only registration and a Native hint against a
Host-only registration both fail with the operation-not-registered error
and zero invocations of either backend. -/
theorem dispatch_explicit_hint_isolation_witness :
    exampleDispatcherCOnly.dispatch exampleResolve "mul" [.int 2, .int 3] (some "python") =
      (.error (.valueError ("Python operation not registered: " ++ "mul")), 0, 0) ∧
    exampleDispatcherHostOnly.dispatch exampleResolve "add" [.int 2, .int 3] (some "c") =
      (.error (.valueError ("C operation not registered: " ++ "add")), 0, 0) := by
  constructor
  · exact (dispatch_explicit_hint_isolation exampleDispatcherCOnly exampleResolve "mul"
      [.int 2, .int 3]).1 rfl
  · exact (dispatch_explicit_hint_isolation exampleDispatcherHostOnly exampleResolve "add"
      [.int 2, .int 3]).2 rfl

/-- C10 witness: the default-backend theorem applied at the Native-only
dispatcher fixture. -/
theorem dispatch_default_backend_mismatch_witness :
    exampleDispatcherCOnly.has_operation "mul" Option.none = true ∧
    exampleDispatcherCOnly.dispatch exampleResolve "mul" [.int 2, .int 3] Option.none =
      (.error (.valueError ("Python operation not registered: " ++ "mul")), 0, 0) :=
  dispatch_default_backend_mismatch exampleDispatcherCOnly exampleResolve "mul"
    [.int 2, .int 3] ⟨"libm.so", "c_mul", "int", ["int", "int"]⟩ rfl rfl rfl
